import Mathlib

/-!
Verification of the GHIC zero-shot classification backend
(src/ml_engine.py, src/main.py, src/database.py) against its
natural-language specification.

The embedding models the two SQLAlchemy tables of src/database.py as Lean
structures held in an explicit `DB` state, and each FastAPI endpoint of
src/main.py as a pure function from request data and a `DB` to a result
and an updated `DB`.  The HuggingFace models are black boxes per the
specification ("given text, return a vector" / "given a prompt, return
generated text"); they enter the embedding as function parameters:

* the composition of the sentence embedder and cosine similarity
  (`MLEngine.predict` lines 57-68 of src/ml_engine.py) is abstracted as a
  score function `sim : String → String → ℚ` — every claim about the
  ranker holds for all score outcomes, so nothing is lost;
* a possibly-failing engine call (the embedder may be unloaded or raise)
  is abstracted as `enginePredict : String → List String → Except String
  (List ScoredLabel)`, the error carrying the Python exception message;
* the text generator is abstracted as `generate : String → String`,
  returning, as the HuggingFace text-generation pipeline does, the prompt
  followed by the continuation.

Python floats are modelled as ℚ (the claims depend only on ordering and
on formatting shape, never on binary-float rounding).  HTTP errors
(`HTTPException(status_code, detail)`) are modelled by `ApiError`.
-/

/-- A `{"label": ..., "score": ...}` dict as produced by
`MLEngine.predict` (src/ml_engine.py line 70). -/
structure ScoredLabel where
  label : String
  score : ℚ
deriving DecidableEq

/-- A row of the `global_labels` table (src/database.py lines 13-18). -/
structure GlobalLabel where
  id : Nat
  label : String
  description : Option String
  is_active : Bool
deriving DecidableEq

/-- A row of the `query_history` table (src/database.py lines 20-28).
The `timestamp` column is omitted: no claim mentions it and no modelled
operation reads it. -/
structure QueryHistory where
  id : Nat
  query_text : String
  model_results : List ScoredLabel
  user_reported_wrong : Bool
  correct_label_provided : Option String
deriving DecidableEq

/-- The SQLite database state: both tables plus the autoincrement
counters that assign primary keys. -/
structure DB where
  global_labels : List GlobalLabel
  query_history : List QueryHistory
  next_label_id : Nat
  next_history_id : Nat
deriving DecidableEq

/-- `HTTPException(status_code, detail)` as raised throughout
src/main.py. -/
structure ApiError where
  status_code : Nat
  detail : String
deriving DecidableEq

/-! ### The similarity ranker (src/ml_engine.py, `MLEngine.predict`) -/

/-- The descending-score ordering used by
`similarities.sort(key=lambda x: x["score"], reverse=True)`
(src/ml_engine.py line 72): `a` may come before `b` iff `a`'s score is at
least `b`'s. -/
def rankRel (a b : ScoredLabel) : Prop := b.score ≤ a.score

instance : DecidableRel rankRel := fun a b => inferInstanceAs (Decidable (b.score ≤ a.score))

instance : IsTotal ScoredLabel rankRel := ⟨fun a b => le_total b.score a.score⟩

instance : IsTrans ScoredLabel rankRel := ⟨fun _ _ _ hab hbc => le_trans hbc hab⟩

namespace MLEngine

/-- `MLEngine.predict` (src/ml_engine.py lines 49-73): score every
candidate label against the text, sort descending by score, return the
top 5.  Python's `list.sort` is stable (with `reverse=True` equal
elements keep their original order), and a stable sort by a total
preorder is unique, so it is modelled by Mathlib's stable
`insertionSort`.  The embedding-and-cosine computation of lines 57-68 is
the abstracted black box `sim`. -/
def predict (sim : String → String → ℚ) (text : String) (labels : List String) :
    List ScoredLabel :=
  let similarities := labels.map fun label => { label := label, score := sim text label }
  (similarities.insertionSort rankRel).take 5

end MLEngine

/-! ### History persistence (src/main.py, `save_prediction_to_db`) -/

/-- `save_prediction_to_db` (src/main.py lines 27-36): append a fresh
`QueryHistory` row (flag and correction column take their declared
defaults), commit, and return the assigned primary key. -/
def save_prediction_to_db (db : DB) (text : String) (results : List ScoredLabel) :
    Nat × DB :=
  let db_item : QueryHistory :=
    { id := db.next_history_id, query_text := text, model_results := results,
      user_reported_wrong := false, correct_label_provided := none }
  (db_item.id,
   { db with query_history := db.query_history ++ [db_item],
             next_history_id := db.next_history_id + 1 })

/-! ### The predict endpoint (src/main.py, `predict`) -/

/-- The names of the active rows of `global_labels`, as fetched by
`db.query(GlobalLabel).filter(GlobalLabel.is_active == True).all()`
followed by `[l.label for l in ...]` (src/main.py lines 56-57). -/
def activeLabelNames (db : DB) : List String :=
  (db.global_labels.filter fun l => l.is_active).map fun l => l.label

/-- The candidate list built by `predict` (src/main.py lines 55-64):
active label names, extended with the custom labels when that list is
truthy (non-empty), then `list(set(...))` — deduplicated; `set` yields
the distinct elements in an unspecified order, modelled by
`List.dedup`. -/
def candidateSet (db : DB) (custom_labels : List String) : List String :=
  let candidate_labels := activeLabelNames db
  let candidate_labels :=
    if custom_labels.isEmpty then candidate_labels else candidate_labels ++ custom_labels
  candidate_labels.dedup

/-- The `/predict` response model (src/main.py lines 77-81). -/
structure PredictResponse where
  history_id : Nat
  text : String
  top_results : List ScoredLabel
deriving DecidableEq

/-- The `/predict` endpoint (src/main.py lines 45-81): build the
candidate set, reject with 400 when it is empty, run the engine (any
exception becomes a 500 whose detail is the exception message),
synchronously persist the result and answer with the assigned history
id.  `enginePredict` abstracts `ml_engine.ml_instance.predict`; a loaded
engine is `fun t ls => .ok (MLEngine.predict sim t ls)`. -/
def predict (enginePredict : String → List String → Except String (List ScoredLabel))
    (text : String) (custom_labels : List String) (db : DB) :
    Except ApiError PredictResponse × DB :=
  let candidate_labels := candidateSet db custom_labels
  if candidate_labels.isEmpty then
    (.error { status_code := 400, detail := "No labels provided (Global or Custom)" }, db)
  else
    match enginePredict text candidate_labels with
    | .error e => (.error { status_code := 500, detail := e }, db)
    | .ok results =>
      let (history_id, db') := save_prediction_to_db db text results
      (.ok { history_id := history_id, text := text, top_results := results }, db')

/-! ### The feedback endpoint (src/main.py, `report_wrong_prediction`) -/

/-- The row mutation performed by the `/feedback` endpoint (src/main.py
lines 90-91) on the row whose primary key matches: set the flag and
store the supplied label verbatim; every other row is untouched. -/
def applyFeedback (history_id : Nat) (correct_label : String) (rec : QueryHistory) :
    QueryHistory :=
  if rec.id == history_id then
    { rec with user_reported_wrong := true,
               correct_label_provided := some correct_label }
  else rec

/-- The `/feedback` endpoint (src/main.py lines 83-94): look the record
up by id (404 when absent), set its flag, store the supplied label
verbatim and commit.  SQLAlchemy mutates the single row matching the
primary key; the map touches exactly the rows whose id matches. -/
def report_wrong_prediction (history_id : Nat) (correct_label : String) (db : DB) :
    Except ApiError String × DB :=
  match db.query_history.find? (fun rec => rec.id == history_id) with
  | none => (.error { status_code := 404, detail := "History record not found" }, db)
  | some _ =>
    (.ok "Feedback received. Thank you for improving the model.",
     { db with query_history :=
         db.query_history.map (applyFeedback history_id correct_label) })

/-! ### The bulk predict endpoint (src/main.py, `bulk_predict`) -/

/-- One entry of a `/predict/bulk` response (src/main.py lines 222-237).
`history_id` is an `Int` because the failure marker uses `-1`. -/
structure BulkResultItem where
  history_id : Int
  text : String
  top_label : String
  confidence : ℚ
  top_results : List ScoredLabel
deriving DecidableEq

/-- The `/predict/bulk` response model (src/main.py lines 239-242). -/
structure BulkResponse where
  total_processed : Nat
  results : List BulkResultItem
deriving DecidableEq

/-- The failure-marker result appended when an item of the batch raises
(src/main.py lines 229-237). -/
def bulkSentinel (text : String) : BulkResultItem :=
  { history_id := -1, text := text, top_label := "ERROR", confidence := 0, top_results := [] }

/-- One iteration of the `/predict/bulk` loop body (src/main.py lines
210-237): run the engine, read `predictions[0]`, persist, and build the
success entry; any exception in that try block — an engine fault, or the
`IndexError` of `predictions[0]` on an empty list — yields the sentinel
entry and leaves the database untouched. -/
def bulkProcessItem (enginePredict : String → List String → Except String (List ScoredLabel))
    (candidate_labels : List String) (text_input : String) (db : DB) :
    BulkResultItem × DB :=
  match enginePredict text_input candidate_labels with
  | .error _ => (bulkSentinel text_input, db)
  | .ok predictions =>
    match predictions with
    | [] => (bulkSentinel text_input, db)
    | top_result :: _ =>
      let (h_id, db') := save_prediction_to_db db text_input predictions
      ({ history_id := (h_id : Int), text := text_input, top_label := top_result.label,
         confidence := top_result.score, top_results := predictions.take 3 }, db')

/-- The `/predict/bulk` processing loop (src/main.py lines 205-237),
threading the database through the items in input order. -/
def bulkLoop (enginePredict : String → List String → Except String (List ScoredLabel))
    (candidate_labels : List String) :
    List String → DB → List BulkResultItem × DB
  | [], db => ([], db)
  | t :: ts, db =>
    let (item, db') := bulkProcessItem enginePredict candidate_labels t db
    let (rest, db'') := bulkLoop enginePredict candidate_labels ts db'
    (item :: rest, db'')

/-- The `/predict/bulk` endpoint after file reading and format
validation (src/main.py lines 176-242), taking the already-parsed list
of texts: the size check, then the one-time active-label check, then the
per-item loop. -/
def bulk_predict (enginePredict : String → List String → Except String (List ScoredLabel))
    (data : List String) (db : DB) : Except ApiError BulkResponse × DB :=
  if data.length > 100 then
    (.error { status_code := 400, detail := "Batch size limit exceeded (Max 100 items)." }, db)
  else
    let candidate_labels := activeLabelNames db
    if candidate_labels.isEmpty then
      (.error { status_code := 400, detail := "No global labels found in database." }, db)
    else
      let (results_list, db') := bulkLoop enginePredict candidate_labels data db
      (.ok { total_processed := results_list.length, results := results_list }, db')

/-! ### The bulk label upload endpoint (src/main.py, `bulk_add_labels`) -/

/-- One parsed item of a bulk label upload: `item.get("label")` and
`item.get("description")` (src/main.py lines 264-265), each `none` when
the key is missing. -/
structure BulkLabelItem where
  label : Option String
  description : Option String
deriving DecidableEq

/-- The `/admin/labels/bulk` response (src/main.py lines 285-290). -/
structure BulkAddResponse where
  message : String
  added : Nat
  skipped : Nat
  errors : List String
deriving DecidableEq

/-- One iteration of the `/admin/labels/bulk` loop (src/main.py lines
263-281) over the accumulator (added count, skipped count, errors,
pending rows).  `if not label_name: continue` skips a missing or empty
name silently.  The session has `autoflush=False`, so the duplicate
query sees only the rows committed before the request (`committed`),
never the pending adds.  The `GlobalLabel(...)` constructor and
`db.add` cannot raise, so the except branch that would extend `errors`
is unreachable. -/
def bulkAddFold (committed : List GlobalLabel)
    (acc : Nat × Nat × List String × List (String × Option String))
    (item : BulkLabelItem) : Nat × Nat × List String × List (String × Option String) :=
  match item.label with
  | none => acc
  | some label_name =>
    if label_name = "" then acc
    else if committed.any (fun l => l.label == label_name) then
      (acc.1, acc.2.1 + 1, acc.2.2.1, acc.2.2.2)
    else
      (acc.1 + 1, acc.2.1, acc.2.2.1, acc.2.2.2 ++ [(label_name, item.description)])

/-- The `/admin/labels/bulk` endpoint after file parsing (src/main.py
lines 244-290): fold the items, then `db.commit()` the pending rows.
Because the session has `autoflush=False`, a pending row never collides
with the committed rows the loop checked against, but two pending rows
may carry the same fresh name; the single commit at line 283 then
violates the `unique=True` index on `label` (src/database.py line 16)
and raises `IntegrityError`, which no handler catches — the request
answers a generic 500 and nothing is persisted.  On a successful commit
the autoincrement key assigns ids in insertion order and `is_active`
takes its declared default `True`. -/
def bulk_add_labels (data : List BulkLabelItem) (db : DB) :
    Except ApiError BulkAddResponse × DB :=
  let r := data.foldl (bulkAddFold db.global_labels) (0, 0, [], [])
  if (r.2.2.2.map Prod.fst).Nodup then
    (.ok { message := "Bulk processing complete",
           added := r.1, skipped := r.2.1, errors := r.2.2.1 },
     { db with
         global_labels := db.global_labels ++ r.2.2.2.enum.map (fun p =>
           { id := db.next_label_id + p.1, label := p.2.1,
             description := p.2.2, is_active := true }),
         next_label_id := db.next_label_id + r.2.2.2.length })
  else
    (.error { status_code := 500, detail := "Internal Server Error" }, db)

/-! ### The explain endpoint (src/ml_engine.py `explain_prediction`,
src/main.py `explain_classification`) -/

/-- Python fixed-point formatting of a number with `prec` fractional
digits, as in the format specs `.3f` and `3f` (the latter's width 3 is
always met here since `prec` is 3 or 6).  Scores are modelled as ℚ, so
the decimal rounding is round-half-up rather than the binary
round-half-even of CPython floats; no claim depends on the digits
produced. -/
def pyFormatFixed (prec : Nat) (q : ℚ) : String :=
  let scaled : ℤ := round (q * ((10 : ℚ) ^ prec))
  let sign := if scaled < 0 then "-" else ""
  let n := scaled.natAbs
  let fs := Nat.repr (n % 10 ^ prec)
  sign ++ Nat.repr (n / 10 ^ prec) ++ "." ++
    String.mk (List.replicate (prec - fs.length) '0') ++ fs

/-- The `score_info` fragment (src/ml_engine.py line 79).  Python's
`if score` is false both for `None` and for `0.0`, so the fragment is
empty in those cases. -/
def explainScoreInfo (score : Option ℚ) : String :=
  match score with
  | none => ""
  | some s =>
    if s = 0 then "" else " The similarity score was " ++ pyFormatFixed 3 s ++ "."

/-- The generation prompt (src/ml_engine.py lines 81-83). -/
def explainPrompt (text label : String) (score : Option ℚ) : String :=
  "Explain in one concise line why the transaction \x27" ++ text ++
    "\x27 matches the category \x27" ++ label ++ "\x27" ++ explainScoreInfo score ++
    ", without restating the transaction description."

/-- The fixed explanatory template prefix of the returned text
(src/ml_engine.py line 94); its score is rendered with the format spec
`3f` (width 3, default precision 6). -/
def explainTemplate (label : String) (s : ℚ) : String :=
  "This transaction aligns with the " ++ label ++
    " category based on its meaning, supported by a similarity score of " ++
    pyFormatFixed 6 s ++ "."

/-- `MLEngine.explain_prediction` (src/ml_engine.py lines 75-94): build
the prompt, run the generator, slice off the first `len(prompt)`
characters of the generated text, and return the template prefix
followed by that continuation.  The final f-string formats `score`
with `3f` unconditionally, so when `score` is `None` the return line
raises `TypeError: unsupported format string passed to
NoneType.__format__` — modelled as the error case.  `generate`
abstracts the text-generation pipeline (prompt ↦ prompt ++
continuation). -/
def explain_prediction (generate : String → String) (text label : String)
    (score : Option ℚ) : Except String String :=
  let prompt := explainPrompt text label score
  let result := generate prompt
  match score with
  | none => .error "unsupported format string passed to NoneType.__format__"
  | some s => .ok (explainTemplate label s ++ result.drop prompt.length)

/-- The `/explain` response model (src/main.py lines 302-306). -/
structure ExplainResponse where
  text : String
  label : String
  explanation : String
deriving DecidableEq

/-- The `/explain` endpoint (src/main.py lines 293-308): any exception
from `explain_prediction` becomes a 500 whose detail is the exception
message. -/
def explain_classification (generate : String → String) (text label : String)
    (confidence : Option ℚ) : Except ApiError ExplainResponse :=
  match explain_prediction generate text label confidence with
  | .error e => .error { status_code := 500, detail := e }
  | .ok explanation_text =>
    .ok { text := text, label := label, explanation := explanation_text }

/-! ## Theorems -/

/-! ### C1 — the ranker sorts descending, truncates to 5, and is stable -/

/-- Inserting `x` in descending-score order commutes with restricting to
one score value `s`: every element strictly before the insertion point
scores strictly above `x`, so when `x` scores `s` nothing with score `s`
precedes it. -/
lemma filter_score_orderedInsert (x : ScoredLabel) (l : List ScoredLabel) (s : ℚ) :
    ((l.orderedInsert rankRel x).filter fun y => decide (y.score = s)) =
      if x.score = s then x :: l.filter (fun y => decide (y.score = s))
      else l.filter fun y => decide (y.score = s) := by
  rw [List.orderedInsert_eq_take_drop, List.filter_append]
  have hsplit : l.filter (fun y => decide (y.score = s)) =
      ((l.takeWhile fun b => decide ¬rankRel x b).filter fun y => decide (y.score = s)) ++
        ((l.dropWhile fun b => decide ¬rankRel x b).filter fun y => decide (y.score = s)) := by
    rw [← List.filter_append, List.takeWhile_append_dropWhile]
  by_cases hx : x.score = s
  · have htake :
        ((l.takeWhile fun b => decide ¬rankRel x b).filter fun y => decide (y.score = s)) = [] := by
      refine List.filter_eq_nil_iff.mpr fun a ha => ?_
      have hq := List.mem_takeWhile_imp ha
      have hgt : ¬ rankRel x a := by simpa using hq
      have hlt : x.score < a.score := lt_of_not_le hgt
      simp only [decide_eq_true_eq]
      intro hcontra
      rw [hcontra, hx] at hlt
      exact lt_irrefl s hlt
    rw [htake, List.nil_append, List.filter_cons, if_pos hx, hsplit, htake, List.nil_append]
    simp [hx]
  · rw [if_neg hx, hsplit, List.filter_cons]
    simp [hx]

/-- The descending-score insertion sort of src/ml_engine.py line 72
preserves, for each score value, the exact subsequence of entries
carrying that score — this is stability. -/
lemma filter_score_insertionSort (l : List ScoredLabel) (s : ℚ) :
    ((l.insertionSort rankRel).filter fun y => decide (y.score = s)) =
      l.filter fun y => decide (y.score = s) := by
  induction l with
  | nil => rfl
  | cons a l ih =>
    rw [List.insertionSort, filter_score_orderedInsert, List.filter_cons]
    by_cases h : a.score = s <;> simp [h, ih]

/-- C1: for every non-empty candidate label list and every query text,
`MLEngine.predict` returns a list sorted descending by score
(`rankRel`), of length at most `min 5 (number of candidates)`, and
stable on ties: for each score value `s` the output entries scoring `s`
form a subsequence of the scored input candidates scoring `s`, hence
equal-score candidates appear in their input order. -/
theorem ranker_sorted_bounded_stable (sim : String → String → ℚ) (text : String)
    (labels : List String) (_hne : labels ≠ []) :
    (MLEngine.predict sim text labels).Sorted rankRel ∧
    (MLEngine.predict sim text labels).length ≤ min 5 labels.length ∧
    ∀ s : ℚ,
      List.Sublist
        ((MLEngine.predict sim text labels).filter fun y => decide (y.score = s))
        ((((labels.map fun label => { label := label, score := sim text label }) :
            List ScoredLabel)).filter fun y => decide (y.score = s)) := by
  refine ⟨?_, ?_, fun s => ?_⟩
  · exact List.Pairwise.sublist (List.take_sublist 5 _)
      (List.sorted_insertionSort rankRel _)
  · have h1 : (MLEngine.predict sim text labels).length = min 5 labels.length := by
      simp [MLEngine.predict, List.length_take,
        (List.perm_insertionSort rankRel _).length_eq]
    exact le_of_eq h1
  · have h2 := filter_score_insertionSort
      (labels.map fun label => { label := label, score := sim text label }) s
    have h3 := List.Sublist.filter (fun y : ScoredLabel => decide (y.score = s))
      (List.take_sublist 5
        ((labels.map fun label =>
          ({ label := label, score := sim text label } : ScoredLabel)).insertionSort rankRel))
    exact h2 ▸ h3

/-- A concrete score function for evaluating the ranker: label `"b"`
scores 2, everything else 1. -/
def simB : String → String → ℚ := fun _ label => if label = "b" then 2 else 1

/-- C1 witness: the ranker theorem applied to the concrete candidate
list `["a", "b", "c"]` under `simB`. -/
theorem ranker_sorted_bounded_stable_witness :
    (["a", "b", "c"] ≠ ([] : List String)) ∧
    ((MLEngine.predict simB "t" ["a", "b", "c"]).Sorted rankRel ∧
     (MLEngine.predict simB "t" ["a", "b", "c"]).length ≤
       min 5 (["a", "b", "c"] : List String).length ∧
     ∀ s : ℚ,
       List.Sublist
         ((MLEngine.predict simB "t" ["a", "b", "c"]).filter fun y => decide (y.score = s))
         ((((["a", "b", "c"].map fun label =>
             { label := label, score := simB "t" label }) :
             List ScoredLabel)).filter fun y => decide (y.score = s))) :=
  ⟨by decide, ranker_sorted_bounded_stable simB "t" ["a", "b", "c"] (by decide)⟩

/-! ### C3, C4, C10 — the predict endpoint -/

/-- The candidate list of `predict` is empty exactly when both label
sources are empty. -/
lemma candidateSet_eq_nil_iff (db : DB) (custom_labels : List String) :
    candidateSet db custom_labels = [] ↔
      (activeLabelNames db = [] ∧ custom_labels = []) := by
  rcases custom_labels with _ | ⟨c, cs⟩
  · simp [candidateSet, List.dedup_eq_nil]
  · simp [candidateSet, List.dedup_eq_nil]

/-- An engine stub that always raises, for witnesses. -/
def engBoom : String → List String → Except String (List ScoredLabel) :=
  fun _ _ => .error "boom"

/-- A database with no labels and no history. -/
def dbEmpty : DB :=
  { global_labels := [], query_history := [], next_label_id := 1, next_history_id := 1 }

/-- A database holding the single active label `"A"`. -/
def dbA : DB :=
  { global_labels := [{ id := 1, label := "A", description := none, is_active := true }],
    query_history := [], next_label_id := 2, next_history_id := 1 }

/-- A database holding the active labels `"A"` and `"B"`. -/
def dbAB : DB :=
  { global_labels := [{ id := 1, label := "A", description := none, is_active := true },
                      { id := 2, label := "B", description := none, is_active := true }],
    query_history := [], next_label_id := 3, next_history_id := 1 }

/-- C3: `predict` answers with the 400 "No labels provided (Global or
Custom)" client error exactly when active labels and ad-hoc labels are
both absent; in particular, with no active labels but at least one
ad-hoc label it never produces that error. -/
theorem predict_no_candidates_iff
    (enginePredict : String → List String → Except String (List ScoredLabel))
    (text : String) (custom_labels : List String) (db : DB) :
    ((predict enginePredict text custom_labels db).1 =
        .error { status_code := 400, detail := "No labels provided (Global or Custom)" } ↔
      (activeLabelNames db = [] ∧ custom_labels = [])) ∧
    (activeLabelNames db = [] → custom_labels ≠ [] →
      (predict enginePredict text custom_labels db).1 ≠
        .error { status_code := 400, detail := "No labels provided (Global or Custom)" }) := by
  have hkey := candidateSet_eq_nil_iff db custom_labels
  by_cases h1 : candidateSet db custom_labels = []
  · have hemp : (candidateSet db custom_labels).isEmpty = true := by simp [h1]
    refine ⟨?_, ?_⟩
    · simp only [predict, hemp, if_true]
      simpa using hkey.mp h1
    · intro _ hc
      exact absurd (hkey.mp h1).2 hc
  · have hemp : (candidateSet db custom_labels).isEmpty = false := by
      simpa [List.isEmpty_iff] using h1
    have hfst : (predict enginePredict text custom_labels db).1 ≠
        .error { status_code := 400, detail := "No labels provided (Global or Custom)" } := by
      cases heng : enginePredict text (candidateSet db custom_labels) with
      | error e => simp [predict, hemp, heng]
      | ok results => simp [predict, hemp, heng, save_prediction_to_db]
    exact ⟨iff_of_false hfst fun hcontra => h1 (hkey.mpr hcontra), fun _ _ => hfst⟩

/-- C3 witness: with no active labels but one ad-hoc label, `predict`
does not produce the no-candidates error. -/
theorem predict_no_candidates_iff_witness :
    (predict engBoom "hello" ["X"] dbEmpty).1 ≠
      .error { status_code := 400, detail := "No labels provided (Global or Custom)" } :=
  (predict_no_candidates_iff engBoom "hello" ["X"] dbEmpty).2 rfl (by decide)

/-- C4: the candidate set of `predict` is duplicate-free and is the
string-level union of the active label names and the ad-hoc labels;
concretely, active `["A", "B"]` with ad-hoc `["B", "C"]` yields 3
candidates, not 4. -/
theorem predict_candidate_union (db : DB) (custom_labels : List String) :
    (candidateSet db custom_labels).Nodup ∧
    (∀ s, s ∈ candidateSet db custom_labels ↔
      (s ∈ activeLabelNames db ∨ s ∈ custom_labels)) ∧
    (activeLabelNames db = ["A", "B"] → custom_labels = ["B", "C"] →
      (candidateSet db custom_labels).length = 3) := by
  refine ⟨List.nodup_dedup _, fun s => ?_, fun h1 h2 => ?_⟩
  · rcases custom_labels with _ | ⟨c, cs⟩
    · simp [candidateSet]
    · simp [candidateSet]
  · subst h2
    simp [candidateSet, h1]

/-- C4 witness: the union theorem applied to the database with active
labels `"A"`, `"B"` and ad-hoc labels `["B", "C"]`. -/
theorem predict_candidate_union_witness :
    (candidateSet dbAB ["B", "C"]).length = 3 :=
  (predict_candidate_union dbAB ["B", "C"]).2.2 rfl rfl

/-- C10: when the engine raises, `predict` surfaces the 500 server error
and leaves the database — in particular the history table — exactly as
it was; a history record is appended only on the success path, and then
the returned id is the id of the appended record. -/
theorem predict_history_atomic
    (enginePredict : String → List String → Except String (List ScoredLabel))
    (text : String) (custom_labels : List String) (db : DB) :
    (∀ e, (candidateSet db custom_labels).isEmpty = false →
        enginePredict text (candidateSet db custom_labels) = .error e →
        predict enginePredict text custom_labels db =
          (.error { status_code := 500, detail := e }, db)) ∧
    (∀ results, (candidateSet db custom_labels).isEmpty = false →
        enginePredict text (candidateSet db custom_labels) = .ok results →
        (predict enginePredict text custom_labels db).1 =
          .ok { history_id := db.next_history_id, text := text, top_results := results } ∧
        (predict enginePredict text custom_labels db).2.query_history =
          db.query_history ++
            [{ id := db.next_history_id, query_text := text, model_results := results,
               user_reported_wrong := false, correct_label_provided := none }]) := by
  refine ⟨fun e hemp heng => ?_, fun results hemp heng => ?_⟩
  · simp [predict, hemp, heng]
  · refine ⟨?_, ?_⟩ <;> simp [predict, hemp, heng, save_prediction_to_db]

/-- C10 witness: a failing engine over a database with one active label
leaves the database unchanged and surfaces the 500 error. -/
theorem predict_history_atomic_witness :
    predict engBoom "x" [] dbA =
      (.error { status_code := 500, detail := "boom" }, dbA) :=
  (predict_history_atomic engBoom "x" [] dbA).1 "boom" rfl rfl

/-! ### C6, C7 — the feedback endpoint -/

/-- `applyFeedback` never changes a row's primary key. -/
lemma applyFeedback_id (hid : Nat) (label : String) (rec : QueryHistory) :
    (applyFeedback hid label rec).id = rec.id := by
  unfold applyFeedback
  split <;> rfl

/-- Looking a row up by id commutes with the feedback mutation, because
the mutation preserves ids. -/
lemma find?_map_applyFeedback (hid : Nat) (label : String) (l : List QueryHistory) :
    (l.map (applyFeedback hid label)).find? (fun rec => rec.id == hid) =
      (l.find? (fun rec => rec.id == hid)).map (applyFeedback hid label) := by
  induction l with
  | nil => rfl
  | cons a l ih =>
    simp only [List.map_cons, List.find?, applyFeedback_id]
    cases hpa : (a.id == hid) with
    | true => simp
    | false => simpa using ih

/-- Mutating the same row twice keeps only the latest mutation: the flag
is already true, and the stored label is overwritten. -/
lemma applyFeedback_applyFeedback (hid : Nat) (l1 l2 : String) (rec : QueryHistory) :
    applyFeedback hid l2 (applyFeedback hid l1 rec) = applyFeedback hid l2 rec := by
  unfold applyFeedback
  cases hb : (rec.id == hid) <;> simp [hb]

/-- C6: `report_wrong_prediction` on an id that does not resolve answers
the 404 not-found error and leaves the database untouched; on a known id
it acknowledges, and the record is afterwards retrievable by the same id
with the flag set and the supplied label stored verbatim (all its other
columns unchanged). -/
theorem feedback_not_found_and_update (hid : Nat) (label : String) (db : DB) :
    (db.query_history.find? (fun rec => rec.id == hid) = none →
      report_wrong_prediction hid label db =
        (.error { status_code := 404, detail := "History record not found" }, db)) ∧
    (∀ rec, db.query_history.find? (fun rec => rec.id == hid) = some rec →
      (report_wrong_prediction hid label db).1 =
        .ok "Feedback received. Thank you for improving the model." ∧
      (report_wrong_prediction hid label db).2.query_history.find?
          (fun rec => rec.id == hid) =
        some { rec with user_reported_wrong := true,
                        correct_label_provided := some label }) := by
  refine ⟨fun h => ?_, fun rec h => ⟨?_, ?_⟩⟩
  · simp [report_wrong_prediction, h]
  · simp [report_wrong_prediction, h]
  · have hrec : (rec.id == hid) = true := by simpa using List.find?_some h
    simp only [report_wrong_prediction, h]
    rw [find?_map_applyFeedback, h]
    simp [applyFeedback, hrec]

/-- A database holding one history record with id 1. -/
def dbH : DB :=
  { global_labels := [{ id := 1, label := "A", description := none, is_active := true }],
    query_history := [{ id := 1, query_text := "q",
                        model_results := [{ label := "A", score := 1 }],
                        user_reported_wrong := false, correct_label_provided := none }],
    next_label_id := 2, next_history_id := 2 }

/-- C6 witness: feedback on the known id 1 of `dbH` acknowledges and the
corrected record is retrievable. -/
theorem feedback_not_found_and_update_witness :
    (report_wrong_prediction 1 "Travel" dbH).1 =
      .ok "Feedback received. Thank you for improving the model." ∧
    (report_wrong_prediction 1 "Travel" dbH).2.query_history.find?
        (fun rec => rec.id == 1) =
      some { id := 1, query_text := "q",
             model_results := [{ label := "A", score := 1 }],
             user_reported_wrong := true, correct_label_provided := some "Travel" } :=
  (feedback_not_found_and_update 1 "Travel" dbH).2
    { id := 1, query_text := "q", model_results := [{ label := "A", score := 1 }],
      user_reported_wrong := false, correct_label_provided := none } rfl

/-- C7: resubmitting feedback for an existing record succeeds (it is not
rejected) and overwrites the prior correction: the database afterwards
equals what the single latest submission alone would have produced. -/
theorem feedback_resubmission_overwrites (hid : Nat) (l1 l2 : String) (db : DB)
    (rec : QueryHistory)
    (h : db.query_history.find? (fun r => r.id == hid) = some rec) :
    (report_wrong_prediction hid l2 (report_wrong_prediction hid l1 db).2).1 =
      .ok "Feedback received. Thank you for improving the model." ∧
    (report_wrong_prediction hid l2 (report_wrong_prediction hid l1 db).2).2 =
      (report_wrong_prediction hid l2 db).2 := by
  have hdb1 : (report_wrong_prediction hid l1 db).2 =
      { db with query_history := db.query_history.map (applyFeedback hid l1) } := by
    simp [report_wrong_prediction, h]
  have hfind : (db.query_history.map (applyFeedback hid l1)).find?
      (fun r => r.id == hid) = some (applyFeedback hid l1 rec) := by
    rw [find?_map_applyFeedback, h]; rfl
  have hcomp : (applyFeedback hid l2 ∘ applyFeedback hid l1) = applyFeedback hid l2 :=
    funext fun r => applyFeedback_applyFeedback hid l1 l2 r
  constructor
  · rw [hdb1]; simp [report_wrong_prediction, hfind]
  · rw [hdb1]
    simp only [report_wrong_prediction, hfind, h, List.map_map, hcomp]

/-- C7 witness: two feedback submissions on record 1 of `dbH` succeed
and leave the state of a single submission of the latest label. -/
theorem feedback_resubmission_overwrites_witness :
    (report_wrong_prediction 1 "B" (report_wrong_prediction 1 "A2" dbH).2).1 =
      .ok "Feedback received. Thank you for improving the model." ∧
    (report_wrong_prediction 1 "B" (report_wrong_prediction 1 "A2" dbH).2).2 =
      (report_wrong_prediction 1 "B" dbH).2 :=
  feedback_resubmission_overwrites 1 "A2" "B" dbH
    { id := 1, query_text := "q", model_results := [{ label := "A", score := 1 }],
      user_reported_wrong := false, correct_label_provided := none } rfl

/-! ### C5 — the bulk endpoint rejects wholesale before processing -/

/-- C5: `bulk_predict` performs its wholesale rejections before touching
any item: an over-limit batch, and (otherwise) an empty active-label
universe, each produce a single 400 error with the database — hence the
history table — unchanged, so no item was scored or persisted. -/
theorem bulk_rejects_before_processing
    (enginePredict : String → List String → Except String (List ScoredLabel))
    (data : List String) (db : DB) :
    (data.length > 100 →
      bulk_predict enginePredict data db =
        (.error { status_code := 400,
                  detail := "Batch size limit exceeded (Max 100 items)." }, db)) ∧
    (data.length ≤ 100 → activeLabelNames db = [] →
      bulk_predict enginePredict data db =
        (.error { status_code := 400,
                  detail := "No global labels found in database." }, db)) := by
  refine ⟨fun h => ?_, fun hlen hlab => ?_⟩
  · simp [bulk_predict, h]
  · have h2 : ¬ data.length > 100 := by omega
    simp [bulk_predict, h2, hlab]

/-- C5 witness: a 101-item batch is rejected wholesale with the database
unchanged. -/
theorem bulk_rejects_before_processing_witness :
    (List.replicate 101 "x").length > 100 ∧
    bulk_predict engBoom (List.replicate 101 "x") dbA =
      (.error { status_code := 400,
                detail := "Batch size limit exceeded (Max 100 items)." }, dbA) :=
  ⟨by simp,
   (bulk_rejects_before_processing engBoom (List.replicate 101 "x") dbA).1 (by simp)⟩

/-! ### C2 — per-item fault isolation in the bulk endpoint -/

/-- Unfolding one step of the bulk loop. -/
lemma bulkLoop_cons (eng : String → List String → Except String (List ScoredLabel))
    (cands : List String) (a : String) (ts : List String) (db : DB) :
    bulkLoop eng cands (a :: ts) db =
      ((bulkProcessItem eng cands a db).1 ::
         (bulkLoop eng cands ts (bulkProcessItem eng cands a db).2).1,
       (bulkLoop eng cands ts (bulkProcessItem eng cands a db).2).2) := rfl

/-- The bulk loop yields exactly one result per input item. -/
lemma bulkLoop_length (eng : String → List String → Except String (List ScoredLabel))
    (cands : List String) :
    ∀ (ts : List String) (db : DB), (bulkLoop eng cands ts db).1.length = ts.length := by
  intro ts
  induction ts with
  | nil => intro db; rfl
  | cons a ts ih => intro db; rw [bulkLoop_cons]; simp [ih]

/-- The `i`-th result of the bulk loop is the processing of the `i`-th
input item, at some intermediate database state. -/
lemma bulkLoop_getElem (eng : String → List String → Except String (List ScoredLabel))
    (cands : List String) :
    ∀ (ts : List String) (db : DB) (i : Nat) (t : String), ts[i]? = some t →
      ∃ dbi, (bulkLoop eng cands ts db).1[i]? = some (bulkProcessItem eng cands t dbi).1 := by
  intro ts
  induction ts with
  | nil => intro db i t h; simp at h
  | cons a ts ih =>
    intro db i t h
    cases i with
    | zero =>
      simp only [List.getElem?_cons_zero, Option.some.injEq] at h
      subst h
      exact ⟨db, by rw [bulkLoop_cons]; simp⟩
    | succ n =>
      simp only [List.getElem?_cons_succ] at h
      obtain ⟨dbi, hd⟩ := ih (bulkProcessItem eng cands a db).2 n t h
      exact ⟨dbi, by rw [bulkLoop_cons]; simpa using hd⟩

/-- Every bulk result — success or sentinel — carries its input text. -/
lemma bulkProcessItem_text (eng : String → List String → Except String (List ScoredLabel))
    (cands : List String) (t : String) (db : DB) :
    ((bulkProcessItem eng cands t db).1).text = t := by
  unfold bulkProcessItem
  cases eng t cands with
  | error e => rfl
  | ok preds => cases preds <;> rfl

/-- An item on which the engine raises produces the sentinel result and
leaves the database untouched. -/
lemma bulkProcessItem_fail (eng : String → List String → Except String (List ScoredLabel))
    (cands : List String) (t : String) (db : DB) (e : String)
    (h : eng t cands = .error e) :
    bulkProcessItem eng cands t db = (bulkSentinel t, db) := by
  simp [bulkProcessItem, h]

/-- An item on which the engine answers a non-empty list produces the
normal success result. -/
lemma bulkProcessItem_ok (eng : String → List String → Except String (List ScoredLabel))
    (cands : List String) (t : String) (db : DB) (top : ScoredLabel)
    (rest : List ScoredLabel) (h : eng t cands = .ok (top :: rest)) :
    (bulkProcessItem eng cands t db).1 =
      { history_id := (db.next_history_id : Int), text := t, top_label := top.label,
        confidence := top.score, top_results := (top :: rest).take 3 } := by
  simp [bulkProcessItem, h, save_prediction_to_db]

/-- C2: a batch in which the engine raises on item `k` still returns, as
a normal (non-error) response, one result per input item in input order;
item `k` carries the sentinel fields (`history_id = -1`, label
`"ERROR"`, zero confidence, empty list), and every item on which the
engine answers normally carries its normal prediction fields (with a
non-negative history id). -/
theorem bulk_isolates_item_failure
    (eng : String → List String → Except String (List ScoredLabel))
    (data : List String) (db : DB) (k : Nat) (tk : String)
    (hlen : data.length ≤ 100) (hlab : activeLabelNames db ≠ [])
    (hk : data[k]? = some tk)
    (hfail : ∃ e, eng tk (activeLabelNames db) = .error e) :
    ∃ (resp : BulkResponse) (db' : DB),
      bulk_predict eng data db = (.ok resp, db') ∧
      resp.total_processed = data.length ∧
      resp.results.length = data.length ∧
      (∀ (i : Nat) (t : String), data[i]? = some t →
        ∃ item : BulkResultItem, resp.results[i]? = some item ∧ item.text = t) ∧
      resp.results[k]? = some (bulkSentinel tk) ∧
      (∀ (i : Nat) (t : String), data[i]? = some t → i ≠ k →
        ∀ top rest, eng t (activeLabelNames db) = .ok (top :: rest) →
          ∃ item : BulkResultItem, resp.results[i]? = some item ∧
            item.text = t ∧ item.top_label = top.label ∧ item.confidence = top.score ∧
            item.top_results = (top :: rest).take 3 ∧ 0 ≤ item.history_id) := by
  obtain ⟨e, he⟩ := hfail
  have hlen2 : ¬ data.length > 100 := by omega
  have hlab2 : (activeLabelNames db).isEmpty = false := by
    cases h : activeLabelNames db with
    | nil => exact absurd h hlab
    | cons a l => rfl
  have hbp : bulk_predict eng data db =
      (.ok { total_processed := (bulkLoop eng (activeLabelNames db) data db).1.length,
             results := (bulkLoop eng (activeLabelNames db) data db).1 },
       (bulkLoop eng (activeLabelNames db) data db).2) := by
    simp [bulk_predict, hlen2, hlab2]
  refine ⟨{ total_processed := (bulkLoop eng (activeLabelNames db) data db).1.length,
            results := (bulkLoop eng (activeLabelNames db) data db).1 },
          (bulkLoop eng (activeLabelNames db) data db).2, hbp, ?_, ?_, ?_, ?_, ?_⟩
  · simp [bulkLoop_length]
  · simp [bulkLoop_length]
  · intro i t ht
    obtain ⟨dbi, hd⟩ := bulkLoop_getElem eng (activeLabelNames db) data db i t ht
    exact ⟨_, hd, bulkProcessItem_text eng (activeLabelNames db) t dbi⟩
  · show (bulkLoop eng (activeLabelNames db) data db).1[k]? = some (bulkSentinel tk)
    obtain ⟨dbk, hd⟩ := bulkLoop_getElem eng (activeLabelNames db) data db k tk hk
    rw [hd, bulkProcessItem_fail eng (activeLabelNames db) tk dbk e he]
  · intro i t ht hik top rest hok
    obtain ⟨dbi, hd⟩ := bulkLoop_getElem eng (activeLabelNames db) data db i t ht
    have hitem := bulkProcessItem_ok eng (activeLabelNames db) t dbi top rest hok
    exact ⟨_, hd, by rw [hitem], by rw [hitem], by rw [hitem], by rw [hitem],
           by rw [hitem]; exact Int.natCast_nonneg _⟩

/-- C2 witness: the isolation theorem applied to the one-item batch
`["bad"]` whose item the engine fails on. -/
theorem bulk_isolates_item_failure_witness :
    ∃ (resp : BulkResponse) (db' : DB),
      bulk_predict engBoom ["bad"] dbA = (.ok resp, db') ∧
      resp.total_processed = (["bad"] : List String).length ∧
      resp.results.length = (["bad"] : List String).length ∧
      (∀ (i : Nat) (t : String), (["bad"] : List String)[i]? = some t →
        ∃ item : BulkResultItem, resp.results[i]? = some item ∧ item.text = t) ∧
      resp.results[0]? = some (bulkSentinel "bad") ∧
      (∀ (i : Nat) (t : String), (["bad"] : List String)[i]? = some t → i ≠ 0 →
        ∀ top rest, engBoom t (activeLabelNames dbA) = .ok (top :: rest) →
          ∃ item : BulkResultItem, resp.results[i]? = some item ∧
            item.text = t ∧ item.top_label = top.label ∧ item.confidence = top.score ∧
            item.top_results = (top :: rest).take 3 ∧ 0 ≤ item.history_id) :=
  bulk_isolates_item_failure engBoom ["bad"] dbA 0 "bad"
    (by decide) (by decide) rfl ⟨"boom", rfl⟩






/-! ### C8 — the bulk label upload -/

/-- An upload item that the loop inserts: it has a non-empty name that
no committed label carries. -/
def itemNewName (committed : List GlobalLabel) (item : BulkLabelItem) : Bool :=
  match item.label with
  | none => false
  | some n => !(n == "") && !(committed.any fun l => l.label == n)

/-- An upload item that the loop counts as skipped: it has a non-empty
name already carried by a committed label. -/
def itemDupName (committed : List GlobalLabel) (item : BulkLabelItem) : Bool :=
  match item.label with
  | none => false
  | some n => !(n == "") && (committed.any fun l => l.label == n)

/-- The added count of the upload fold: one per item with a fresh
non-empty name. -/
lemma bulkAddFold_added (com : List GlobalLabel) :
    ∀ (data : List BulkLabelItem) (acc : Nat × Nat × List String × List (String × Option String)),
      (data.foldl (bulkAddFold com) acc).1 =
        acc.1 + (data.filter (itemNewName com)).length := by
  intro data
  induction data with
  | nil => intro acc; simp
  | cons it data ih =>
    intro acc
    rw [List.foldl_cons, ih, List.filter_cons]
    cases hl : it.label with
    | none => simp [bulkAddFold, itemNewName, hl]
    | some n =>
      by_cases hn : n = ""
      · simp [bulkAddFold, itemNewName, hl, hn]
      · by_cases hdup : (com.any fun l => l.label == n) = true
        · simp [bulkAddFold, itemNewName, hl, hn, hdup]
        · simp only [Bool.not_eq_true] at hdup
          simp [bulkAddFold, itemNewName, hl, hn, hdup]
          omega

/-- The skipped count of the upload fold: one per item whose non-empty
name already exists. -/
lemma bulkAddFold_skipped (com : List GlobalLabel) :
    ∀ (data : List BulkLabelItem) (acc : Nat × Nat × List String × List (String × Option String)),
      (data.foldl (bulkAddFold com) acc).2.1 =
        acc.2.1 + (data.filter (itemDupName com)).length := by
  intro data
  induction data with
  | nil => intro acc; simp
  | cons it data ih =>
    intro acc
    rw [List.foldl_cons, ih, List.filter_cons]
    cases hl : it.label with
    | none => simp [bulkAddFold, itemDupName, hl]
    | some n =>
      by_cases hn : n = ""
      · simp [bulkAddFold, itemDupName, hl, hn]
      · by_cases hdup : (com.any fun l => l.label == n) = true
        · simp [bulkAddFold, itemDupName, hl, hn, hdup]
          omega
        · simp only [Bool.not_eq_true] at hdup
          simp [bulkAddFold, itemDupName, hl, hn, hdup]

/-- The upload fold never extends the errors list. -/
lemma bulkAddFold_errors (com : List GlobalLabel) :
    ∀ (data : List BulkLabelItem) (acc : Nat × Nat × List String × List (String × Option String)),
      (data.foldl (bulkAddFold com) acc).2.2.1 = acc.2.2.1 := by
  intro data
  induction data with
  | nil => intro acc; simp
  | cons it data ih =>
    intro acc
    rw [List.foldl_cons, ih]
    cases hl : it.label with
    | none => simp [bulkAddFold, hl]
    | some n =>
      by_cases hn : n = ""
      · simp [bulkAddFold, hl, hn]
      · by_cases hdup : (com.any fun l => l.label == n) = true
        · simp [bulkAddFold, hl, hn, hdup]
        · simp only [Bool.not_eq_true] at hdup
          simp [bulkAddFold, hl, hn, hdup]

/-- The pending rows of the upload fold: one `(name, description)` pair
per item with a fresh non-empty name, in input order. -/
lemma bulkAddFold_pending (com : List GlobalLabel) :
    ∀ (data : List BulkLabelItem) (acc : Nat × Nat × List String × List (String × Option String)),
      (data.foldl (bulkAddFold com) acc).2.2.2 =
        acc.2.2.2 ++ (data.filter (itemNewName com)).map
          (fun it => (it.label.getD "", it.description)) := by
  intro data
  induction data with
  | nil => intro acc; simp
  | cons it data ih =>
    intro acc
    rw [List.foldl_cons, ih, List.filter_cons]
    cases hl : it.label with
    | none => simp [bulkAddFold, itemNewName, hl]
    | some n =>
      by_cases hn : n = ""
      · simp [bulkAddFold, itemNewName, hl, hn]
      · by_cases hdup : (com.any fun l => l.label == n) = true
        · simp [bulkAddFold, itemNewName, hl, hn, hdup]
        · simp only [Bool.not_eq_true] at hdup
          simp [bulkAddFold, itemNewName, hl, hn, hdup]

/-- C8 counterexample: two failures of the claim at concrete inputs.
Uploading one item with no name answers success with `added = 0`,
`skipped = 0` and an **empty** errors list — the structural error is
silently ignored, not accumulated as the claim states.  And uploading
the same fresh name `"X"` twice does abort the whole batch: the
commit-time unique-index violation surfaces as a 500 with nothing
persisted, so the counts response is never returned. -/
theorem bulk_add_silent_skip_and_duplicate_abort :
    bulk_add_labels [{ label := none, description := none }] dbEmpty =
      (.ok { message := "Bulk processing complete", added := 0, skipped := 0, errors := [] },
       dbEmpty) ∧
    bulk_add_labels [{ label := some "X", description := none },
                     { label := some "X", description := none }] dbEmpty =
      (.error { status_code := 500, detail := "Internal Server Error" }, dbEmpty) :=
  ⟨rfl, rfl⟩

/-- C8 (amended): the upload loop itself never aborts on an item:
non-empty names duplicating an existing label are counted as skipped,
not raised as errors; fresh non-empty names are counted as added; an
item with a missing (or empty) name is skipped silently — counted
neither as added nor as skipped and never accumulated into the errors
list, which is always empty (the guarded per-item insertion code cannot
fail).  The counts response is returned only when the fresh names are
pairwise distinct; a batch repeating a fresh name makes the single
final commit violate the unique label index, answering a 500 server
error with the database unchanged. -/
theorem bulk_add_counts_and_errors (data : List BulkLabelItem) (db : DB) :
    ((((data.filter (itemNewName db.global_labels)).map fun it => it.label.getD "").Nodup →
      ∃ (resp : BulkAddResponse) (db' : DB),
        bulk_add_labels data db = (.ok resp, db') ∧
        resp.added = (data.filter (itemNewName db.global_labels)).length ∧
        resp.skipped = (data.filter (itemDupName db.global_labels)).length ∧
        resp.errors = [] ∧
        resp.message = "Bulk processing complete")) ∧
    (¬ (((data.filter (itemNewName db.global_labels)).map fun it => it.label.getD "").Nodup) →
      bulk_add_labels data db =
        (.error { status_code := 500, detail := "Internal Server Error" }, db)) := by
  have hnames : ((data.foldl (bulkAddFold db.global_labels) (0, 0, [], [])).2.2.2.map Prod.fst) =
      (data.filter (itemNewName db.global_labels)).map fun it => it.label.getD "" := by
    rw [bulkAddFold_pending, List.nil_append, List.map_map]
    rfl
  constructor
  · intro hnodup
    have hn2 : (((data.foldl (bulkAddFold db.global_labels)
        (0, 0, [], [])).2.2.2).map Prod.fst).Nodup := by
      rw [hnames]; exact hnodup
    have heq : bulk_add_labels data db =
        (.ok { message := "Bulk processing complete",
               added := (data.foldl (bulkAddFold db.global_labels) (0, 0, [], [])).1,
               skipped := (data.foldl (bulkAddFold db.global_labels) (0, 0, [], [])).2.1,
               errors := (data.foldl (bulkAddFold db.global_labels) (0, 0, [], [])).2.2.1 },
         { db with
             global_labels := db.global_labels ++
               ((data.foldl (bulkAddFold db.global_labels)
                  (0, 0, [], [])).2.2.2.enum.map fun p =>
                 { id := db.next_label_id + p.1, label := p.2.1,
                   description := p.2.2, is_active := true }),
             next_label_id := db.next_label_id +
               (data.foldl (bulkAddFold db.global_labels) (0, 0, [], [])).2.2.2.length }) := by
      simp only [bulk_add_labels]
      rw [if_pos hn2]
    refine ⟨_, _, heq, ?_, ?_, ?_, rfl⟩
    · show (data.foldl (bulkAddFold db.global_labels) (0, 0, [], [])).1 = _
      rw [bulkAddFold_added]
      simp
    · show (data.foldl (bulkAddFold db.global_labels) (0, 0, [], [])).2.1 = _
      rw [bulkAddFold_skipped]
      simp
    · show (data.foldl (bulkAddFold db.global_labels) (0, 0, [], [])).2.2.1 = []
      rw [bulkAddFold_errors]
  · intro hnodup
    have hn2 : ¬ (((data.foldl (bulkAddFold db.global_labels)
        (0, 0, [], [])).2.2.2).map Prod.fst).Nodup := by
      rw [hnames]; exact hnodup
    simp only [bulk_add_labels]
    rw [if_neg hn2]

/-- C8 witness: a batch with a missing-name item, a duplicate of the
committed label `"A"`, and the fresh name `"X"` answers
`added = 1, skipped = 1, errors = []`. -/
theorem bulk_add_counts_and_errors_witness :
    ∃ (resp : BulkAddResponse) (db' : DB),
      bulk_add_labels [{ label := none, description := none },
                       { label := some "A", description := none },
                       { label := some "X", description := none }] dbA = (.ok resp, db') ∧
      resp.added = 1 ∧ resp.skipped = 1 ∧ resp.errors = [] ∧
      resp.message = "Bulk processing complete" :=
  (bulk_add_counts_and_errors
    [{ label := none, description := none },
     { label := some "A", description := none },
     { label := some "X", description := none }] dbA).1 (by decide)

/-! ### C9 — the explanation endpoint -/

/-- C9: for every generator, text and label, `explain_classification`
with a present score answers the fixed explanatory template prefix
concatenated with the generator's continuation beyond the prompt
boundary — never the pure raw generation, never a missing prefix.  With
the score absent, however, the final f-string of
`MLEngine.explain_prediction` formats `None` with `3f` and raises, so
the endpoint answers a 500 server error instead of succeeding — the code
contradicts its own `score: float = None` signature and the `if score
else ""` guard three lines earlier. -/
theorem explain_template_and_missing_score (generate : String → String)
    (text label : String) :
    (explain_classification generate text label none =
      .error { status_code := 500,
               detail := "unsupported format string passed to NoneType.__format__" }) ∧
    (∀ s : ℚ, explain_classification generate text label (some s) =
      .ok { text := text, label := label,
            explanation := explainTemplate label s ++
              (generate (explainPrompt text label (some s))).drop
                (explainPrompt text label (some s)).length }) := by
  refine ⟨?_, fun s => ?_⟩ <;> simp [explain_classification, explain_prediction]
